import Mathlib

/-!
Verification of the SDSS photometric feature encoder found in
`04_HowTos/FileService/How_to_use_the_File_Services.ipynb`:
the `sdss_objid` bit-packing function, the `asinh_mag` flux-to-magnitude
converter, the `auxilliary_colors` target-selection quantities and the
per-pixel `asinh_image` converter.

Machine integers (numpy `uint64`) are modelled as `Nat` with explicit
reduction modulo `2 ^ 64`; floating-point arrays are modelled as lists of
real numbers; numpy exceptions (`ValueError`, `KeyError`, `IndexError`)
are modelled with `Except`.  Vectorised numpy expressions are modelled
row-wise (per element), which is semantically equivalent for these
single-pass elementwise operations.
-/

namespace FileServices

/-- One row of the input catalog for `sdss_objid`: the five fields the
function reads (`rerun`, `run`, `camcol`, `field`, `id`). -/
structure CatalogRow where
  rerun : Nat
  run : Nat
  camcol : Nat
  field : Nat
  id : Nat
deriving Repr, DecidableEq

/-- Reduction modulo `2 ^ 64`, the semantics of numpy `uint64` casts and
of `uint64` arithmetic. -/
def u64 (n : Nat) : Nat := n % 2 ^ 64

/-- The objid computed for a single row once validation has passed:
`objid = (skyversion << 59) | (rerun << 48) | (run << 32) | (camcol << 29)
| (firstfield << 28) | (field << 16) | objnum` with `skyversion = 2` and
`firstfield = 0`, every operand a `uint64` and every shift performed in
`uint64` arithmetic. -/
def objidRow (row : CatalogRow) : Nat :=
  u64 (u64 (0 + 2) <<< 59) |||
    u64 (u64 row.rerun <<< 48) |||
    u64 (u64 row.run <<< 32) |||
    u64 (u64 row.camcol <<< 29) |||
    u64 (u64 0 <<< 28) |||
    u64 (u64 row.field <<< 16) |||
    u64 row.id

/-- The function `sdss_objid`: cast all columns to `uint64`, validate every column of
the whole batch (in the source's order of checks), and only then encode.
Raising `ValueError(msg)` is modelled as `Except.error msg`. -/
def sdss_objid (data : List CatalogRow) : Except String (List Nat) :=
  let skyversion := data.map fun _ => u64 (0 + 2)
  let rerun := data.map fun row => u64 row.rerun
  let run := data.map fun row => u64 row.run
  let camcol := data.map fun row => u64 row.camcol
  let field := data.map fun row => u64 row.field
  let objnum := data.map fun row => u64 row.id
  if skyversion.any fun v => decide (16 ≤ v) then
    Except.error "skyversion values are out-of-bounds!"
  else if rerun.any fun v => decide (2 ^ 11 ≤ v) then
    Except.error "rerun values are out-of-bounds!"
  else if run.any fun v => decide (2 ^ 16 ≤ v) then
    Except.error "run values are out-of-bounds!"
  else if camcol.any fun v => decide (v < 1) || decide (6 < v) then
    Except.error "camcol values are out-of-bounds!"
  else if field.any fun v => decide (2 ^ 12 ≤ v) then
    Except.error "field values are out-of-bounds!"
  else if objnum.any fun v => decide (2 ^ 16 ≤ v) then
    Except.error "id values are out-of-bounds!"
  else
    Except.ok (data.map objidRow)

/-- The documented valid ranges of the five fields:
`rerun ∈ [0, 2^11)`, `run ∈ [0, 2^16)`, `camcol ∈ [1, 6]`,
`field ∈ [0, 2^12)`, `id ∈ [0, 2^16)`. -/
def validRange (row : CatalogRow) : Prop :=
  row.rerun < 2 ^ 11 ∧ row.run < 2 ^ 16 ∧ 1 ≤ row.camcol ∧ row.camcol ≤ 6 ∧
    row.field < 2 ^ 12 ∧ row.id < 2 ^ 16

instance (row : CatalogRow) : Decidable (validRange row) := by
  unfold validRange; infer_instance

/-- All five fields fit in a `uint64` (true of any numpy integer input
after the source's `uint64` casts). -/
def fitsU64 (row : CatalogRow) : Prop :=
  row.rerun < 2 ^ 64 ∧ row.run < 2 ^ 64 ∧ row.camcol < 2 ^ 64 ∧
    row.field < 2 ^ 64 ∧ row.id < 2 ^ 64

instance (row : CatalogRow) : Decidable (fitsU64 row) := by
  unfold fitsU64; infer_instance

/-- Extraction of bits 48–58 (the documented `rerun` position). -/
def decode_rerun (n : Nat) : Nat := n / 2 ^ 48 % 2 ^ 11

/-- Extraction of bits 32–47 (the documented `run` position). -/
def decode_run (n : Nat) : Nat := n / 2 ^ 32 % 2 ^ 16

/-- Extraction of bits 29–31 (the documented `camcol` position). -/
def decode_camcol (n : Nat) : Nat := n / 2 ^ 29 % 2 ^ 3

/-- Extraction of bits 16–27 (the documented `field` position). -/
def decode_field (n : Nat) : Nat := n / 2 ^ 16 % 2 ^ 12

/-- Extraction of bits 0–15 (the documented `id` position). -/
def decode_id (n : Nat) : Nat := n % 2 ^ 16

/-- Extraction of bits 59–62 (the documented sky-version position). -/
def decode_sky (n : Nat) : Nat := n / 2 ^ 59 % 2 ^ 4

/-- Extraction of bit 63 (documented as unassigned, always 0). -/
def decode_empty (n : Nat) : Nat := n / 2 ^ 63

/-- Extraction of bit 28 (the documented first-field flag, always 0). -/
def decode_firstfield (n : Nat) : Nat := n / 2 ^ 28 % 2

/-- Disjoint-range bitwise or is addition: if `b < 2 ^ n` then
`a * 2 ^ n ||| b = a * 2 ^ n + b`. -/
theorem or_low_eq_add (a b n : Nat) (h : b < 2 ^ n) :
    a * 2 ^ n ||| b = a * 2 ^ n + b := by
  rw [Nat.mul_comm]
  exact (Nat.mul_add_lt_is_or h a).symm

/-- For a row in the documented ranges the packed identifier is the plain
sum of the shifted fields. -/
theorem objidRow_eq_sum (row : CatalogRow) (h : validRange row) :
    objidRow row =
      2 ^ 60 + row.rerun * 2 ^ 48 + row.run * 2 ^ 32 + row.camcol * 2 ^ 29 +
        row.field * 2 ^ 16 + row.id := by
  obtain ⟨h1, h2, h3, h4, h5, h6⟩ := h
  unfold objidRow u64
  rw [Nat.shiftLeft_eq, Nat.shiftLeft_eq, Nat.shiftLeft_eq, Nat.shiftLeft_eq,
    Nat.shiftLeft_eq, Nat.shiftLeft_eq]
  rw [Nat.mod_eq_of_lt (by norm_num : (0 + 2) % 2 ^ 64 * 2 ^ 59 < 2 ^ 64)]
  rw [Nat.mod_eq_of_lt (show row.rerun < 2 ^ 64 by omega)]
  rw [Nat.mod_eq_of_lt (show row.rerun * 2 ^ 48 < 2 ^ 64 by omega)]
  rw [Nat.mod_eq_of_lt (show row.run < 2 ^ 64 by omega)]
  rw [Nat.mod_eq_of_lt (show row.run * 2 ^ 32 < 2 ^ 64 by omega)]
  rw [Nat.mod_eq_of_lt (show row.camcol < 2 ^ 64 by omega)]
  rw [Nat.mod_eq_of_lt (show row.camcol * 2 ^ 29 < 2 ^ 64 by omega)]
  rw [Nat.mod_eq_of_lt (show row.field < 2 ^ 64 by omega)]
  rw [Nat.mod_eq_of_lt (show row.field * 2 ^ 16 < 2 ^ 64 by omega)]
  rw [Nat.mod_eq_of_lt (show row.id < 2 ^ 64 by omega)]
  rw [Nat.mod_eq_of_lt (show (0 : Nat) % 2 ^ 64 * 2 ^ 28 < 2 ^ 64 by norm_num)]
  norm_num
  rw [Nat.lor_assoc, Nat.lor_assoc, Nat.lor_assoc, Nat.lor_assoc]
  have e1 : row.field * 65536 ||| row.id = row.field * 65536 + row.id := by
    have h := or_low_eq_add row.field row.id 16 (by omega)
    norm_num at h
    exact h
  have e2 : row.camcol * 536870912 ||| (row.field * 65536 + row.id) =
      row.camcol * 536870912 + (row.field * 65536 + row.id) := by
    have h := or_low_eq_add row.camcol (row.field * 65536 + row.id) 29 (by omega)
    norm_num at h
    exact h
  have e3 : row.run * 4294967296 |||
        (row.camcol * 536870912 + (row.field * 65536 + row.id)) =
      row.run * 4294967296 + (row.camcol * 536870912 + (row.field * 65536 + row.id)) := by
    have h := or_low_eq_add row.run
      (row.camcol * 536870912 + (row.field * 65536 + row.id)) 32 (by omega)
    norm_num at h
    exact h
  have e4 : row.rerun * 281474976710656 |||
        (row.run * 4294967296 + (row.camcol * 536870912 + (row.field * 65536 + row.id))) =
      row.rerun * 281474976710656 +
        (row.run * 4294967296 + (row.camcol * 536870912 + (row.field * 65536 + row.id))) := by
    have h := or_low_eq_add row.rerun
      (row.run * 4294967296 + (row.camcol * 536870912 + (row.field * 65536 + row.id))) 48
      (by omega)
    norm_num at h
    exact h
  have e5 : (1152921504606846976 : Nat) |||
        (row.rerun * 281474976710656 +
          (row.run * 4294967296 + (row.camcol * 536870912 + (row.field * 65536 + row.id)))) =
      1152921504606846976 +
        (row.rerun * 281474976710656 +
          (row.run * 4294967296 + (row.camcol * 536870912 + (row.field * 65536 + row.id)))) := by
    have h := or_low_eq_add 2
      (row.rerun * 281474976710656 +
        (row.run * 4294967296 + (row.camcol * 536870912 + (row.field * 65536 + row.id)))) 59
      (by omega)
    norm_num at h
    exact h
  rw [e1, e2, e3, e4, e5]
  ring

/-- The rerun check of the source triggers on the batch. -/
def rerunBad (data : List CatalogRow) : Bool :=
  data.any fun row => decide (2 ^ 11 ≤ u64 row.rerun)

/-- The run check of the source triggers on the batch. -/
def runBad (data : List CatalogRow) : Bool :=
  data.any fun row => decide (2 ^ 16 ≤ u64 row.run)

/-- The camcol check of the source triggers on the batch. -/
def camcolBad (data : List CatalogRow) : Bool :=
  data.any fun row => decide (u64 row.camcol < 1) || decide (6 < u64 row.camcol)

/-- The field check of the source triggers on the batch. -/
def fieldBad (data : List CatalogRow) : Bool :=
  data.any fun row => decide (2 ^ 12 ≤ u64 row.field)

/-- The id check of the source triggers on the batch. -/
def idBad (data : List CatalogRow) : Bool :=
  data.any fun row => decide (2 ^ 16 ≤ u64 row.id)

/-- Normal form of `sdss_objid`: the skyversion check never fires, the five
remaining checks fire in the source's order, and only if all pass is the
whole batch encoded. -/
theorem sdss_objid_eq (data : List CatalogRow) :
    sdss_objid data =
      if rerunBad data then Except.error "rerun values are out-of-bounds!"
      else if runBad data then Except.error "run values are out-of-bounds!"
      else if camcolBad data then Except.error "camcol values are out-of-bounds!"
      else if fieldBad data then Except.error "field values are out-of-bounds!"
      else if idBad data then Except.error "id values are out-of-bounds!"
      else Except.ok (data.map objidRow) := by
  unfold sdss_objid rerunBad runBad camcolBad fieldBad idBad
  simp [List.any_map, Function.comp, u64]

/-- C1: for every batch of tuples within the documented ranges
(`rerun < 2^11`, `run < 2^16`, `1 ≤ camcol ≤ 6`, `field < 2^12`,
`id < 2^16`), `sdss_objid` succeeds and, for every row, extracting the
documented bit positions of the returned 64-bit identifier (bits 48–58,
32–47, 29–31, 16–27, 0–15) recovers the original five values, while
bit 63 is 0, bits 59–62 hold the sky-version constant 2 and bit 28 (the
first-field flag) is 0. -/
theorem sdss_objid_roundtrip (data : List CatalogRow)
    (hv : ∀ row ∈ data, validRange row) :
    sdss_objid data = Except.ok (data.map objidRow) ∧
      ∀ row ∈ data,
        decode_rerun (objidRow row) = row.rerun ∧
        decode_run (objidRow row) = row.run ∧
        decode_camcol (objidRow row) = row.camcol ∧
        decode_field (objidRow row) = row.field ∧
        decode_id (objidRow row) = row.id ∧
        decode_empty (objidRow row) = 0 ∧
        decode_sky (objidRow row) = 2 ∧
        decode_firstfield (objidRow row) = 0 := by
  constructor
  · rw [sdss_objid_eq]
    have hr : rerunBad data = false := by
      simp only [rerunBad, List.any_eq_false, decide_eq_true_eq]
      intro row hrow
      have h := (hv row hrow).1
      simp only [u64]
      omega
    have hru : runBad data = false := by
      simp only [runBad, List.any_eq_false, decide_eq_true_eq]
      intro row hrow
      have h := (hv row hrow).2.1
      simp only [u64]
      omega
    have hc : camcolBad data = false := by
      simp only [camcolBad, List.any_eq_false]
      intro row hrow
      have h3 := (hv row hrow).2.2.1
      have h4 := (hv row hrow).2.2.2.1
      simp only [u64, Bool.or_eq_true, decide_eq_true_eq]
      omega
    have hf : fieldBad data = false := by
      simp only [fieldBad, List.any_eq_false, decide_eq_true_eq]
      intro row hrow
      have h := (hv row hrow).2.2.2.2.1
      simp only [u64]
      omega
    have hid : idBad data = false := by
      simp only [idBad, List.any_eq_false, decide_eq_true_eq]
      intro row hrow
      have h := (hv row hrow).2.2.2.2.2
      simp only [u64]
      omega
    simp [hr, hru, hc, hf, hid]
  · intro row hrow
    obtain ⟨h1, h2, h3, h4, h5, h6⟩ := hv row hrow
    have hsum := objidRow_eq_sum row (hv row hrow)
    refine ⟨?_, ?_, ?_, ?_, ?_, ?_, ?_, ?_⟩ <;>
      simp only [decode_rerun, decode_run, decode_camcol, decode_field, decode_id,
        decode_empty, decode_sky, decode_firstfield, hsum] <;> omega

/-- Witness for C1 at the concrete row
`rerun=301, run=6122, camcol=1, field=13, id=1`. -/
theorem sdss_objid_roundtrip_witness :
    decode_rerun (objidRow ⟨301, 6122, 1, 13, 1⟩) = 301 ∧
      decode_run (objidRow ⟨301, 6122, 1, 13, 1⟩) = 6122 := by
  have h := sdss_objid_roundtrip [⟨301, 6122, 1, 13, 1⟩] (by decide)
  have h2 := h.2 ⟨301, 6122, 1, 13, 1⟩ (by simp)
  exact ⟨h2.1, h2.2.1⟩

/-- C2: `sdss_objid` fails exactly when some element of some field violates
its documented range; the error message names the offending field; whole
batches are validated before any encoding (all-or-nothing), so on failure
no output is produced; `camcol = 0`, `camcol = 7` and `run = 2^16` each
fail, while the all-maximum tuple succeeds with the value dictated by the
bit layout. -/
theorem sdss_objid_range_rejection :
    (∀ data : List CatalogRow, (∀ row ∈ data, fitsU64 row) →
      ((∃ msg, sdss_objid data = Except.error msg) ↔ ∃ row ∈ data, ¬ validRange row)) ∧
    (∀ (data : List CatalogRow) (msg : String), (∀ row ∈ data, fitsU64 row) →
      sdss_objid data = Except.error msg →
      (msg = "rerun values are out-of-bounds!" → ∃ row ∈ data, ¬ row.rerun < 2 ^ 11) ∧
      (msg = "run values are out-of-bounds!" → ∃ row ∈ data, ¬ row.run < 2 ^ 16) ∧
      (msg = "camcol values are out-of-bounds!" →
        ∃ row ∈ data, ¬ (1 ≤ row.camcol ∧ row.camcol ≤ 6)) ∧
      (msg = "field values are out-of-bounds!" → ∃ row ∈ data, ¬ row.field < 2 ^ 12) ∧
      (msg = "id values are out-of-bounds!" → ∃ row ∈ data, ¬ row.id < 2 ^ 16)) ∧
    sdss_objid [⟨301, 6122, 0, 13, 1⟩] = Except.error "camcol values are out-of-bounds!" ∧
    sdss_objid [⟨301, 6122, 7, 13, 1⟩] = Except.error "camcol values are out-of-bounds!" ∧
    sdss_objid [⟨301, 2 ^ 16, 1, 13, 1⟩] = Except.error "run values are out-of-bounds!" ∧
    sdss_objid [⟨2047, 65535, 6, 4095, 65535⟩] =
      Except.ok [2 <<< 59 ||| 2047 <<< 48 ||| 65535 <<< 32 ||| 6 <<< 29 |||
        4095 <<< 16 ||| 65535] := by
  refine ⟨?_, ?_, by rfl, by rfl, by rfl, by rfl⟩
  · intro data hfit
    rw [sdss_objid_eq]
    constructor
    · intro ⟨msg, hmsg⟩
      by_cases hr : rerunBad data = true
      · obtain ⟨row, hrow, hd⟩ := List.any_eq_true.mp hr
        refine ⟨row, hrow, fun hv => ?_⟩
        have := (hfit row hrow).1
        have := hv.1
        simp only [u64, decide_eq_true_eq] at hd
        omega
      · by_cases hru : runBad data = true
        · obtain ⟨row, hrow, hd⟩ := List.any_eq_true.mp hru
          refine ⟨row, hrow, fun hv => ?_⟩
          have := (hfit row hrow).2.1
          have := hv.2.1
          simp only [u64, decide_eq_true_eq] at hd
          omega
        · by_cases hc : camcolBad data = true
          · obtain ⟨row, hrow, hd⟩ := List.any_eq_true.mp hc
            refine ⟨row, hrow, fun hv => ?_⟩
            have := (hfit row hrow).2.2.1
            have := hv.2.2.1
            have := hv.2.2.2.1
            simp only [u64, Bool.or_eq_true, decide_eq_true_eq] at hd
            omega
          · by_cases hf : fieldBad data = true
            · obtain ⟨row, hrow, hd⟩ := List.any_eq_true.mp hf
              refine ⟨row, hrow, fun hv => ?_⟩
              have := (hfit row hrow).2.2.2.1
              have := hv.2.2.2.2.1
              simp only [u64, decide_eq_true_eq] at hd
              omega
            · by_cases hid : idBad data = true
              · obtain ⟨row, hrow, hd⟩ := List.any_eq_true.mp hid
                refine ⟨row, hrow, fun hv => ?_⟩
                have := (hfit row hrow).2.2.2.2
                have := hv.2.2.2.2.2
                simp only [u64, decide_eq_true_eq] at hd
                omega
              · simp [hr, hru, hc, hf, hid] at hmsg
    · intro ⟨row, hrow, hv⟩
      obtain ⟨f1, f2, f3, f4, f5⟩ := hfit row hrow
      by_cases hr : rerunBad data = true
      · exact ⟨"rerun values are out-of-bounds!", by simp [hr]⟩
      · by_cases hru : runBad data = true
        · exact ⟨"run values are out-of-bounds!", by simp [hr, hru]⟩
        · by_cases hc : camcolBad data = true
          · exact ⟨"camcol values are out-of-bounds!", by simp [hr, hru, hc]⟩
          · by_cases hf : fieldBad data = true
            · exact ⟨"field values are out-of-bounds!", by simp [hr, hru, hc, hf]⟩
            · by_cases hid : idBad data = true
              · exact ⟨"id values are out-of-bounds!", by simp [hr, hru, hc, hf, hid]⟩
              · exfalso
                simp only [validRange, not_and_or] at hv
                rcases hv with h | h | h | h | h | h
                · exact hr (List.any_eq_true.mpr ⟨row, hrow, by
                    simp only [u64, decide_eq_true_eq]; omega⟩)
                · exact hru (List.any_eq_true.mpr ⟨row, hrow, by
                    simp only [u64, decide_eq_true_eq]; omega⟩)
                · exact hc (List.any_eq_true.mpr ⟨row, hrow, by
                    simp only [u64, Bool.or_eq_true, decide_eq_true_eq]; omega⟩)
                · exact hc (List.any_eq_true.mpr ⟨row, hrow, by
                    simp only [u64, Bool.or_eq_true, decide_eq_true_eq]; omega⟩)
                · exact hf (List.any_eq_true.mpr ⟨row, hrow, by
                    simp only [u64, decide_eq_true_eq]; omega⟩)
                · exact hid (List.any_eq_true.mpr ⟨row, hrow, by
                    simp only [u64, decide_eq_true_eq]; omega⟩)
  · intro data msg hfit hmsg
    rw [sdss_objid_eq] at hmsg
    split at hmsg
    case isTrue hr =>
      obtain ⟨row, hrow, hd⟩ := List.any_eq_true.mp hr
      have hb := (hfit row hrow).1
      simp only [u64, decide_eq_true_eq] at hd
      have hm : msg = "rerun values are out-of-bounds!" := by
        simpa using hmsg.symm
      subst hm
      exact ⟨fun _ => ⟨row, hrow, by omega⟩, fun h => absurd h (by decide),
        fun h => absurd h (by decide), fun h => absurd h (by decide),
        fun h => absurd h (by decide)⟩
    case isFalse =>
      split at hmsg
      case isTrue hru =>
        obtain ⟨row, hrow, hd⟩ := List.any_eq_true.mp hru
        have hb := (hfit row hrow).2.1
        simp only [u64, decide_eq_true_eq] at hd
        have hm : msg = "run values are out-of-bounds!" := by
          simpa using hmsg.symm
        subst hm
        exact ⟨fun h => absurd h (by decide), fun _ => ⟨row, hrow, by omega⟩,
          fun h => absurd h (by decide), fun h => absurd h (by decide),
          fun h => absurd h (by decide)⟩
      case isFalse =>
        split at hmsg
        case isTrue hc =>
          obtain ⟨row, hrow, hd⟩ := List.any_eq_true.mp hc
          have hb := (hfit row hrow).2.2.1
          simp only [u64, Bool.or_eq_true, decide_eq_true_eq] at hd
          have hm : msg = "camcol values are out-of-bounds!" := by
            simpa using hmsg.symm
          subst hm
          exact ⟨fun h => absurd h (by decide), fun h => absurd h (by decide),
            fun _ => ⟨row, hrow, by omega⟩, fun h => absurd h (by decide),
            fun h => absurd h (by decide)⟩
        case isFalse =>
          split at hmsg
          case isTrue hf =>
            obtain ⟨row, hrow, hd⟩ := List.any_eq_true.mp hf
            have hb := (hfit row hrow).2.2.2.1
            simp only [u64, decide_eq_true_eq] at hd
            have hm : msg = "field values are out-of-bounds!" := by
              simpa using hmsg.symm
            subst hm
            exact ⟨fun h => absurd h (by decide), fun h => absurd h (by decide),
              fun h => absurd h (by decide), fun _ => ⟨row, hrow, by omega⟩,
              fun h => absurd h (by decide)⟩
          case isFalse =>
            split at hmsg
            case isTrue hid =>
              obtain ⟨row, hrow, hd⟩ := List.any_eq_true.mp hid
              have hb := (hfit row hrow).2.2.2.2
              simp only [u64, decide_eq_true_eq] at hd
              have hm : msg = "id values are out-of-bounds!" := by
                simpa using hmsg.symm
              subst hm
              exact ⟨fun h => absurd h (by decide), fun h => absurd h (by decide),
                fun h => absurd h (by decide), fun h => absurd h (by decide),
                fun _ => ⟨row, hrow, by omega⟩⟩
            case isFalse =>
              exact absurd hmsg (by simp)

/-- Witness for C2: the iff applied to the singleton batch with
`camcol = 0` yields a failure. -/
theorem sdss_objid_range_rejection_witness :
    ∃ msg, sdss_objid [⟨301, 6122, 0, 13, 1⟩] = Except.error msg := by
  exact (sdss_objid_range_rejection.1 [⟨301, 6122, 0, 13, 1⟩] (by decide)).mpr
    ⟨⟨301, 6122, 0, 13, 1⟩, by simp, by decide⟩

/-- C3: the known example `rerun=301, run=6122, camcol=1, field=13, id=1`
encodes to exactly the value obtained by direct substitution into the bit
layout. -/
theorem sdss_objid_known_example :
    sdss_objid [⟨301, 6122, 1, 13, 1⟩] =
      Except.ok [2 <<< 59 ||| 301 <<< 48 ||| 6122 <<< 32 ||| 1 <<< 29 |||
        13 <<< 16 ||| 1] := by
  rfl

/-- Exceptions raised by the magnitude / color functions: numpy `KeyError`
on a missing structured-array field (carrying the field name), the
`ValueError` raised when a tuple cannot be assigned to a structured dtype
with a different number of fields, and `IndexError` on `bands[0]` for an
empty band string. -/
inductive MagError where
  | missingField (name : String)
  | valueError
  | indexError
deriving Repr, DecidableEq

/-- A numpy structured array, modelled as named columns of real values. -/
abbrev Table := List (String × List ℝ)

/-- Field access `data[name]` on a structured array; a missing field
raises `KeyError(name)`. -/
def getCol (data : Table) (name : String) : Except MagError (List ℝ) :=
  match data.lookup name with
  | some xs => Except.ok xs
  | none => Except.error (MagError.missingField name)

/-- The constant `C = -2.5/np.log(10.0)` of `asinh_mag`. -/
noncomputable def Cmag : ℝ := -2.5 / Real.log 10

/-- The hard-coded 5-tuple `(1.4e-10, 0.9e-10, 1.2e-10, 1.8e-10, 7.4e-10)`
from which `asinh_mag` builds its softening-parameter array `b`. -/
noncomputable def softening : List ℝ :=
  [1.4e-10, 0.9e-10, 1.2e-10, 1.8e-10, 7.4e-10]

/-- The lookup `b[band]` in `asinh_mag`: numpy assigns the 5-tuple to the structured
dtype positionally, so the value attached to `band` is the tuple entry at
the POSITION of `band` in the `bands` string, not a band-keyed constant. -/
noncomputable def bval (bands : List Char) (band : Char) : ℝ :=
  softening.getD (bands.indexOf band) 0

/-- The column name `'{0}flux_{1}'.format(magtype, band)`. -/
def fluxCol (magtype : String) (band : Char) : String :=
  magtype ++ "flux_" ++ band.toString

/-- The column name `'{0}mag_{1}'.format(magtype, band)`. -/
def magCol (magtype : String) (band : Char) : String :=
  magtype ++ "mag_" ++ band.toString

/-- The column name `'extinction_{0}'.format(band)`. -/
def extCol (band : Char) : String :=
  "extinction_" ++ band.toString

/-- The elementwise body of the `asinh_mag` loop:
`C*(np.arcsinh((flux*1.0e-9)/(2.0*b)) + np.log(b))`. -/
noncomputable def luptitude (b flux : ℝ) : ℝ :=
  Cmag * (Real.arsinh (flux * 1.0e-9 / (2.0 * b)) + Real.log b)

/-- One iteration of the `asinh_mag` loop: the named magnitude column for
`band`, with the extinction column subtracted when `deredden` is set. -/
noncomputable def magBand (data : Table) (magtype : String) (bands : List Char)
    (deredden : Bool) (band : Char) : Except MagError (String × List ℝ) :=
  match getCol data (fluxCol magtype band) with
  | Except.error e => Except.error e
  | Except.ok flux =>
    let mag := flux.map (luptitude (bval bands band))
    if deredden then
      match getCol data (extCol band) with
      | Except.error e => Except.error e
      | Except.ok ext =>
        Except.ok (magCol magtype band, List.zipWith (fun m e => m - e) mag ext)
    else
      Except.ok (magCol magtype band, mag)

/-- The `asinh_mag` loop over the requested bands; the first raised
exception aborts the whole call, exactly as in the source. -/
noncomputable def magBands (data : Table) (magtype : String) (bands : List Char)
    (deredden : Bool) : List Char → Except MagError Table
  | [] => Except.ok []
  | band :: rest =>
    match magBand data magtype bands deredden band with
    | Except.error e => Except.error e
    | Except.ok col =>
      match magBands data magtype bands deredden rest with
      | Except.error e => Except.error e
      | Except.ok out => Except.ok (col :: out)

/-- The default band string `ugriz`. -/
def uBands : List Char := ['u', 'g', 'r', 'i', 'z']

/-- The function `asinh_mag(data, magtype, bands, deredden)`: the dtype is read from
the flux column of the first band (`KeyError` if absent, `IndexError` if
`bands` is empty), the softening array is built from the hard-coded
5-tuple (`ValueError` unless exactly 5 bands are requested), then each
requested band is converted in order. -/
noncomputable def asinh_mag (data : Table) (magtype : String) (bands : List Char)
    (deredden : Bool) : Except MagError Table :=
  match bands with
  | [] => Except.error MagError.indexError
  | b0 :: _ =>
    match data.lookup (fluxCol magtype b0) with
    | none => Except.error (MagError.missingField (fluxCol magtype b0))
    | some _ =>
      if bands.length = softening.length then
        magBands data magtype bands deredden bands
      else Except.error MagError.valueError

/-- The band-keyed dictionary
`b = dict(u=1.4e-10, g=0.9e-10, r=1.2e-10, i=1.8e-10, z=7.4e-10)` of
`asinh_image`; `b[band]` raises `KeyError` for any other band. -/
noncomputable def bImg (band : Char) : Option ℝ :=
  if band = 'u' then some 1.4e-10
  else if band = 'g' then some 0.9e-10
  else if band = 'r' then some 1.2e-10
  else if band = 'i' then some 1.8e-10
  else if band = 'z' then some 7.4e-10
  else none

/-- The function `asinh_image(image, band)`: the per-pixel image conversion
`C*(np.arcsinh((image*1.0e-9)/(2.0*b[band])) + np.log(b[band]))` with its
own copies of `C` and of the softening dictionary. -/
noncomputable def asinh_image (image : List ℝ) (band : Char) :
    Except MagError (List ℝ) :=
  match bImg band with
  | none => Except.error (MagError.missingField band.toString)
  | some b =>
    Except.ok (image.map fun f =>
      -2.5 / Real.log 10.0 * (Real.arsinh (f * 1.0e-9 / (2.0 * b)) + Real.log b))

/-- The function `auxilliary_colors(data, bands)`: reads the dtype from the model
magnitude of the first band, then computes the three selection-cut
columns from the g, r, i model magnitudes, row by row. -/
noncomputable def auxilliary_colors (data : Table) (bands : List Char) :
    Except MagError Table :=
  match bands with
  | [] => Except.error MagError.indexError
  | b0 :: _ =>
    match data.lookup ("modelmag_" ++ b0.toString) with
    | none => Except.error (MagError.missingField ("modelmag_" ++ b0.toString))
    | some _ =>
      match data.lookup "modelmag_g" with
      | none => Except.error (MagError.missingField "modelmag_g")
      | some g =>
        match data.lookup "modelmag_r" with
        | none => Except.error (MagError.missingField "modelmag_r")
        | some r =>
          match data.lookup "modelmag_i" with
          | none => Except.error (MagError.missingField "modelmag_i")
          | some i =>
            Except.ok
              [("c_par", List.zipWith3
                  (fun g r i => 0.7 * (g - r) + 1.2 * (r - i - 0.18)) g r i),
               ("c_perp", List.zipWith3
                  (fun g r i => (r - i) - (g - r) / 4.0 - 0.18) g r i),
               ("d_perp", List.zipWith3
                  (fun g r i => (r - i) - (g - r) / 8.0) g r i)]

/-- The leading constant `C = -2.5/np.log(10.0)` is negative. -/
theorem Cmag_neg : Cmag < 0 := by
  have h10 : (0 : ℝ) < Real.log 10 := Real.log_pos (by norm_num)
  exact div_neg_of_neg_of_pos (by norm_num) h10

/-- With a positive softening parameter, the elementwise asinh magnitude
is strictly decreasing in flux. -/
theorem luptitude_strict_anti (b : ℝ) (hb : 0 < b) {f1 f2 : ℝ} (h : f1 < f2) :
    luptitude b f2 < luptitude b f1 := by
  unfold luptitude
  have hden : (0 : ℝ) < 2.0 * b := by
    have : (0 : ℝ) < 2.0 := by norm_num
    exact mul_pos this hb
  have harg : f1 * 1.0e-9 / (2.0 * b) < f2 * 1.0e-9 / (2.0 * b) := by
    apply div_lt_div_of_pos_right ?_ hden
    exact mul_lt_mul_of_pos_right h (by norm_num)
  have hsinh := Real.arsinh_lt_arsinh.mpr harg
  have hadd := add_lt_add_right hsinh (Real.log b)
  exact mul_lt_mul_of_neg_left hadd Cmag_neg

/-- C5: for every band of the default `ugriz` call, with all other
inputs (the softening value and any extinction correction `e`) equal, a
strictly larger flux yields a strictly smaller asinh magnitude, for all
real flux values including zero and negative flux. -/
theorem asinh_mag_strict_anti (band : Char) (hband : band ∈ uBands)
    (f1 f2 e : ℝ) (h : f1 < f2) :
    luptitude (bval uBands band) f2 - e < luptitude (bval uBands band) f1 - e := by
  have hb : 0 < bval uBands band := by
    fin_cases hband
    · rw [show bval uBands 'u' = 1.4e-10 from rfl]; norm_num
    · rw [show bval uBands 'g' = 0.9e-10 from rfl]; norm_num
    · rw [show bval uBands 'r' = 1.2e-10 from rfl]; norm_num
    · rw [show bval uBands 'i' = 1.8e-10 from rfl]; norm_num
    · rw [show bval uBands 'z' = 7.4e-10 from rfl]; norm_num
  exact sub_lt_sub_right (luptitude_strict_anti _ hb h) e

/-- Witness for C5 at band `'r'`, fluxes `0 < 1`, extinction `0`. -/
theorem asinh_mag_strict_anti_witness :
    'r' ∈ uBands ∧
      luptitude (bval uBands 'r') 1 - 0 < luptitude (bval uBands 'r') 0 - 0 :=
  ⟨by decide, asinh_mag_strict_anti 'r' (by decide) 0 1 0 (by norm_num)⟩

/-- C6 (code bug): the softening parameter is NOT a band-keyed constant
for every choice of `bands`.  Requesting the single band `'r'` raises
`ValueError` (the hard-coded 5-tuple cannot be assigned to a 1-field
dtype), so no magnitude is computed at all; and for the reordered band
string `rugiz` the tuple is assigned positionally, so band `'r'`
receives `1.4e-10` instead of its documented constant `1.2e-10`.  Only
the default order `ugriz` gives band `'r'` the value `1.2e-10`. -/
theorem asinh_mag_softening_positional :
    asinh_mag [("modelflux_r", [0])] "model" ['r'] false =
        Except.error MagError.valueError ∧
      bval ['r', 'u', 'g', 'i', 'z'] 'r' = 1.4e-10 ∧
      (1.4e-10 : ℝ) ≠ 1.2e-10 ∧
      bval uBands 'r' = 1.2e-10 :=
  ⟨rfl, rfl, by norm_num, rfl⟩

/-- The inline per-pixel formula of `asinh_image` is the same function as
the loop body of `asinh_mag` (`10.0` and `10` denote the same real). -/
theorem imgFun_eq (b : ℝ) :
    (fun f : ℝ => -2.5 / Real.log 10.0 *
        (Real.arsinh (f * 1.0e-9 / (2.0 * b)) + Real.log b)) = luptitude b := by
  funext f
  unfold luptitude Cmag
  norm_num

/-- For each of the five survey bands, `asinh_image` succeeds and equals
the elementwise map of the `asinh_mag` loop body at that band's softening
value. -/
theorem asinh_image_ok (image : List ℝ) (band : Char) (hband : band ∈ uBands) :
    asinh_image image band =
      Except.ok (image.map (luptitude (bval uBands band))) := by
  fin_cases hband
  · show Except.ok (image.map fun f => -2.5 / Real.log 10.0 *
        (Real.arsinh (f * 1.0e-9 / (2.0 * (1.4e-10 : ℝ))) + Real.log (1.4e-10 : ℝ))) = _
    rw [imgFun_eq]
    rfl
  · show Except.ok (image.map fun f => -2.5 / Real.log 10.0 *
        (Real.arsinh (f * 1.0e-9 / (2.0 * (0.9e-10 : ℝ))) + Real.log (0.9e-10 : ℝ))) = _
    rw [imgFun_eq]
    rfl
  · show Except.ok (image.map fun f => -2.5 / Real.log 10.0 *
        (Real.arsinh (f * 1.0e-9 / (2.0 * (1.2e-10 : ℝ))) + Real.log (1.2e-10 : ℝ))) = _
    rw [imgFun_eq]
    rfl
  · show Except.ok (image.map fun f => -2.5 / Real.log 10.0 *
        (Real.arsinh (f * 1.0e-9 / (2.0 * (1.8e-10 : ℝ))) + Real.log (1.8e-10 : ℝ))) = _
    rw [imgFun_eq]
    rfl
  · show Except.ok (image.map fun f => -2.5 / Real.log 10.0 *
        (Real.arsinh (f * 1.0e-9 / (2.0 * (7.4e-10 : ℝ))) + Real.log (7.4e-10 : ℝ))) = _
    rw [imgFun_eq]
    rfl

/-- C10: the two flux-to-magnitude paths agree: for every band of
`ugriz` and every flux array, `asinh_image` computes exactly the
column `asinh_mag` (default bands, no dereddening) computes for that
band on the same flux array. -/
theorem asinh_image_refines_asinh_mag :
    (∀ (image : List ℝ) (band : Char), band ∈ uBands →
      asinh_image image band =
        Except.ok (image.map (luptitude (bval uBands band)))) ∧
    (∀ (flux : List ℝ) (band : Char), band ∈ uBands →
      ∃ out, asinh_mag [("modelflux_u", flux), ("modelflux_g", flux),
          ("modelflux_r", flux), ("modelflux_i", flux), ("modelflux_z", flux)]
          "model" uBands false = Except.ok out ∧
        ∃ mags, (magCol "model" band, mags) ∈ out ∧
          asinh_image flux band = Except.ok mags) := by
  refine ⟨fun image band hband => asinh_image_ok image band hband, ?_⟩
  intro flux band hband
  refine ⟨[(magCol "model" 'u', flux.map (luptitude (bval uBands 'u'))),
      (magCol "model" 'g', flux.map (luptitude (bval uBands 'g'))),
      (magCol "model" 'r', flux.map (luptitude (bval uBands 'r'))),
      (magCol "model" 'i', flux.map (luptitude (bval uBands 'i'))),
      (magCol "model" 'z', flux.map (luptitude (bval uBands 'z')))], rfl, ?_⟩
  refine ⟨flux.map (luptitude (bval uBands band)), ?_,
    asinh_image_ok flux band hband⟩
  fin_cases hband <;> simp

/-- Witness for C10 at band `'r'` and the one-pixel image `[0]`. -/
theorem asinh_image_refines_asinh_mag_witness :
    asinh_image [0] 'r' = Except.ok ([0].map (luptitude (bval uBands 'r'))) :=
  asinh_image_refines_asinh_mag.1 [0] 'r' (by decide)

/-- C4: for the default `ugriz` call, every output column of
`asinh_mag` is the elementwise map
`flux ↦ (-2.5/ln 10) * (asinh(flux*1e-9/(2*b)) + ln b)` of its band's
flux column with the documented band-specific softening constant `b`
(u: 1.4e-10, g: 0.9e-10, r: 1.2e-10, i: 1.8e-10, z: 7.4e-10); the band's
extinction column is subtracted exactly when dereddening is requested;
and at zero flux the magnitude is the finite constant
`(-2.5/ln 10) * ln b` (for band `'r'`, `b = 1.2e-10`). -/
theorem asinh_mag_formula :
    (∀ (data : Table) (magtype : String) (out : Table),
      asinh_mag data magtype uBands false = Except.ok out →
      ∃ fu fg fr fi fz,
        data.lookup (fluxCol magtype 'u') = some fu ∧
        data.lookup (fluxCol magtype 'g') = some fg ∧
        data.lookup (fluxCol magtype 'r') = some fr ∧
        data.lookup (fluxCol magtype 'i') = some fi ∧
        data.lookup (fluxCol magtype 'z') = some fz ∧
        out = [(magCol magtype 'u', fu.map fun f => -2.5 / Real.log 10 *
                  (Real.arsinh (f * 1.0e-9 / (2.0 * 1.4e-10)) + Real.log 1.4e-10)),
               (magCol magtype 'g', fg.map fun f => -2.5 / Real.log 10 *
                  (Real.arsinh (f * 1.0e-9 / (2.0 * 0.9e-10)) + Real.log 0.9e-10)),
               (magCol magtype 'r', fr.map fun f => -2.5 / Real.log 10 *
                  (Real.arsinh (f * 1.0e-9 / (2.0 * 1.2e-10)) + Real.log 1.2e-10)),
               (magCol magtype 'i', fi.map fun f => -2.5 / Real.log 10 *
                  (Real.arsinh (f * 1.0e-9 / (2.0 * 1.8e-10)) + Real.log 1.8e-10)),
               (magCol magtype 'z', fz.map fun f => -2.5 / Real.log 10 *
                  (Real.arsinh (f * 1.0e-9 / (2.0 * 7.4e-10)) + Real.log 7.4e-10))]) ∧
    (∀ (data : Table) (magtype : String) (out : Table),
      asinh_mag data magtype uBands true = Except.ok out →
      ∃ fu fg fr fi fz eu eg er ei ez,
        data.lookup (fluxCol magtype 'u') = some fu ∧
        data.lookup (fluxCol magtype 'g') = some fg ∧
        data.lookup (fluxCol magtype 'r') = some fr ∧
        data.lookup (fluxCol magtype 'i') = some fi ∧
        data.lookup (fluxCol magtype 'z') = some fz ∧
        data.lookup (extCol 'u') = some eu ∧
        data.lookup (extCol 'g') = some eg ∧
        data.lookup (extCol 'r') = some er ∧
        data.lookup (extCol 'i') = some ei ∧
        data.lookup (extCol 'z') = some ez ∧
        out = [(magCol magtype 'u', List.zipWith (fun m e => m - e)
                  (fu.map (luptitude (1.4e-10))) eu),
               (magCol magtype 'g', List.zipWith (fun m e => m - e)
                  (fg.map (luptitude (0.9e-10))) eg),
               (magCol magtype 'r', List.zipWith (fun m e => m - e)
                  (fr.map (luptitude (1.2e-10))) er),
               (magCol magtype 'i', List.zipWith (fun m e => m - e)
                  (fi.map (luptitude (1.8e-10))) ei),
               (magCol magtype 'z', List.zipWith (fun m e => m - e)
                  (fz.map (luptitude (7.4e-10))) ez)]) ∧
    (∀ b : ℝ, luptitude b 0 = -2.5 / Real.log 10 * Real.log b) ∧
    luptitude (bval uBands 'r') 0 = -2.5 / Real.log 10 * Real.log 1.2e-10 := by
  have hzero : ∀ b : ℝ, luptitude b 0 = -2.5 / Real.log 10 * Real.log b := by
    intro b
    unfold luptitude Cmag
    rw [zero_mul, zero_div, Real.arsinh_zero, zero_add]
  refine ⟨?_, ?_, hzero, hzero _⟩
  · intro data magtype out hok
    rw [show asinh_mag data magtype uBands false =
        (match data.lookup (fluxCol magtype 'u') with
         | none => Except.error (MagError.missingField (fluxCol magtype 'u'))
         | some _ => magBands data magtype uBands false uBands) from rfl] at hok
    cases hu : data.lookup (fluxCol magtype 'u') with
    | none =>
      simp only [hu] at hok
      exact Except.noConfusion hok
    | some fu =>
      simp only [hu,
        show uBands = ['u', 'g', 'r', 'i', 'z'] from rfl,
        magBands, magBand, getCol, Bool.false_eq_true, if_false] at hok
      cases hg : data.lookup (fluxCol magtype 'g') with
      | none =>
        simp only [hg] at hok
        exact Except.noConfusion hok
      | some fg =>
        cases hr : data.lookup (fluxCol magtype 'r') with
        | none =>
          simp only [hg, hr] at hok
          exact Except.noConfusion hok
        | some fr =>
          cases hi : data.lookup (fluxCol magtype 'i') with
          | none =>
            simp only [hg, hr, hi] at hok
            exact Except.noConfusion hok
          | some fi =>
            cases hz : data.lookup (fluxCol magtype 'z') with
            | none =>
              simp only [hg, hr, hi, hz] at hok
              exact Except.noConfusion hok
            | some fz =>
              simp only [hg, hr, hi, hz, Except.ok.injEq] at hok
              exact ⟨fu, fg, fr, fi, fz, rfl, rfl, rfl, rfl, rfl, hok.symm⟩
  · intro data magtype out hok
    rw [show asinh_mag data magtype uBands true =
        (match data.lookup (fluxCol magtype 'u') with
         | none => Except.error (MagError.missingField (fluxCol magtype 'u'))
         | some _ => magBands data magtype uBands true uBands) from rfl] at hok
    cases hu : data.lookup (fluxCol magtype 'u') with
    | none =>
      simp only [hu] at hok
      exact Except.noConfusion hok
    | some fu =>
      simp only [hu,
        show uBands = ['u', 'g', 'r', 'i', 'z'] from rfl,
        magBands, magBand, getCol, eq_self_iff_true, if_true] at hok
      cases heu : data.lookup (extCol 'u') with
      | none =>
        simp only [heu] at hok
        exact Except.noConfusion hok
      | some eu =>
        cases hg : data.lookup (fluxCol magtype 'g') with
        | none =>
          simp only [heu, hg] at hok
          exact Except.noConfusion hok
        | some fg =>
          cases heg : data.lookup (extCol 'g') with
          | none =>
            simp only [heu, hg, heg] at hok
            exact Except.noConfusion hok
          | some eg =>
            cases hr : data.lookup (fluxCol magtype 'r') with
            | none =>
              simp only [heu, hg, heg, hr] at hok
              exact Except.noConfusion hok
            | some fr =>
              cases her : data.lookup (extCol 'r') with
              | none =>
                simp only [heu, hg, heg, hr, her] at hok
                exact Except.noConfusion hok
              | some er =>
                cases hi : data.lookup (fluxCol magtype 'i') with
                | none =>
                  simp only [heu, hg, heg, hr, her, hi] at hok
                  exact Except.noConfusion hok
                | some fi =>
                  cases hei : data.lookup (extCol 'i') with
                  | none =>
                    simp only [heu, hg, heg, hr, her, hi, hei] at hok
                    exact Except.noConfusion hok
                  | some ei =>
                    cases hz : data.lookup (fluxCol magtype 'z') with
                    | none =>
                      simp only [heu, hg, heg, hr, her, hi, hei, hz] at hok
                      exact Except.noConfusion hok
                    | some fz =>
                      cases hez : data.lookup (extCol 'z') with
                      | none =>
                        simp only [heu, hg, heg, hr, her, hi, hei, hz, hez] at hok
                        exact Except.noConfusion hok
                      | some ez =>
                        simp only [heu, hg, heg, hr, her, hi, hei, hz, hez,
                          Except.ok.injEq] at hok
                        exact ⟨fu, fg, fr, fi, fz, eu, eg, er, ei, ez,
                          rfl, rfl, rfl, rfl, rfl, rfl, rfl, rfl, rfl, rfl, hok.symm⟩

/-- Witness for C4 on a five-column table of empty flux arrays. -/
theorem asinh_mag_formula_witness :
    ∃ fu fg fr fi fz : List ℝ,
      ([("modelflux_u", ([] : List ℝ)), ("modelflux_g", []), ("modelflux_r", []),
        ("modelflux_i", []), ("modelflux_z", [])] : Table).lookup
          (fluxCol "model" 'u') = some fu ∧
      ([("modelflux_u", ([] : List ℝ)), ("modelflux_g", []), ("modelflux_r", []),
        ("modelflux_i", []), ("modelflux_z", [])] : Table).lookup
          (fluxCol "model" 'g') = some fg ∧
      ([("modelflux_u", ([] : List ℝ)), ("modelflux_g", []), ("modelflux_r", []),
        ("modelflux_i", []), ("modelflux_z", [])] : Table).lookup
          (fluxCol "model" 'r') = some fr ∧
      ([("modelflux_u", ([] : List ℝ)), ("modelflux_g", []), ("modelflux_r", []),
        ("modelflux_i", []), ("modelflux_z", [])] : Table).lookup
          (fluxCol "model" 'i') = some fi ∧
      ([("modelflux_u", ([] : List ℝ)), ("modelflux_g", []), ("modelflux_r", []),
        ("modelflux_i", []), ("modelflux_z", [])] : Table).lookup
          (fluxCol "model" 'z') = some fz ∧
      ([(magCol "model" 'u', ([] : List ℝ)), (magCol "model" 'g', []),
        (magCol "model" 'r', []), (magCol "model" 'i', []),
        (magCol "model" 'z', [])] : Table) =
        [(magCol "model" 'u', fu.map fun f => -2.5 / Real.log 10 *
            (Real.arsinh (f * 1.0e-9 / (2.0 * 1.4e-10)) + Real.log 1.4e-10)),
         (magCol "model" 'g', fg.map fun f => -2.5 / Real.log 10 *
            (Real.arsinh (f * 1.0e-9 / (2.0 * 0.9e-10)) + Real.log 0.9e-10)),
         (magCol "model" 'r', fr.map fun f => -2.5 / Real.log 10 *
            (Real.arsinh (f * 1.0e-9 / (2.0 * 1.2e-10)) + Real.log 1.2e-10)),
         (magCol "model" 'i', fi.map fun f => -2.5 / Real.log 10 *
            (Real.arsinh (f * 1.0e-9 / (2.0 * 1.8e-10)) + Real.log 1.8e-10)),
         (magCol "model" 'z', fz.map fun f => -2.5 / Real.log 10 *
            (Real.arsinh (f * 1.0e-9 / (2.0 * 7.4e-10)) + Real.log 7.4e-10))] :=
  asinh_mag_formula.1
    [("modelflux_u", []), ("modelflux_g", []), ("modelflux_r", []),
      ("modelflux_i", []), ("modelflux_z", [])] "model"
    [(magCol "model" 'u', []), (magCol "model" 'g', []), (magCol "model" 'r', []),
      (magCol "model" 'i', []), (magCol "model" 'z', [])] (by rfl)

/-- C9: with dereddening requested on an input whose extinction columns
are all absent (flux columns present), `asinh_mag` raises
`MissingFieldError` for the extinction column and returns no output at
all; with `deredden = False` no extinction column is needed and the call
succeeds. -/
theorem asinh_mag_deredden_missing_extinction :
    (∀ (data : Table) (magtype : String),
      (∀ band ∈ uBands, data.lookup (extCol band) = none) →
      (∀ band ∈ uBands, ∃ flux, data.lookup (fluxCol magtype band) = some flux) →
      asinh_mag data magtype uBands true =
        Except.error (MagError.missingField (extCol 'u'))) ∧
    (∀ (data : Table) (magtype : String),
      (∀ band ∈ uBands, ∃ flux, data.lookup (fluxCol magtype band) = some flux) →
      ∃ out, asinh_mag data magtype uBands false = Except.ok out) := by
  constructor
  · intro data magtype hext hflux
    obtain ⟨fu, hfu⟩ := hflux 'u' (by decide)
    have heu := hext 'u' (by decide)
    rw [show asinh_mag data magtype uBands true =
        (match data.lookup (fluxCol magtype 'u') with
         | none => Except.error (MagError.missingField (fluxCol magtype 'u'))
         | some _ => magBands data magtype uBands true uBands) from rfl]
    simp only [hfu, show uBands = ['u', 'g', 'r', 'i', 'z'] from rfl,
      magBands, magBand, getCol, eq_self_iff_true, if_true, heu]
  · intro data magtype hflux
    obtain ⟨fu, hfu⟩ := hflux 'u' (by decide)
    obtain ⟨fg, hfg⟩ := hflux 'g' (by decide)
    obtain ⟨fr, hfr⟩ := hflux 'r' (by decide)
    obtain ⟨fi, hfi⟩ := hflux 'i' (by decide)
    obtain ⟨fz, hfz⟩ := hflux 'z' (by decide)
    refine ⟨[(magCol magtype 'u', fu.map (luptitude (bval uBands 'u'))),
        (magCol magtype 'g', fg.map (luptitude (bval uBands 'g'))),
        (magCol magtype 'r', fr.map (luptitude (bval uBands 'r'))),
        (magCol magtype 'i', fi.map (luptitude (bval uBands 'i'))),
        (magCol magtype 'z', fz.map (luptitude (bval uBands 'z')))], ?_⟩
    rw [show asinh_mag data magtype uBands false =
        (match data.lookup (fluxCol magtype 'u') with
         | none => Except.error (MagError.missingField (fluxCol magtype 'u'))
         | some _ => magBands data magtype uBands false uBands) from rfl]
    simp only [hfu, hfg, hfr, hfi, hfz,
      show uBands = ['u', 'g', 'r', 'i', 'z'] from rfl,
      magBands, magBand, getCol, Bool.false_eq_true, if_false]

/-- Witness for C9 on a concrete five-flux-column table without
extinction columns. -/
theorem asinh_mag_deredden_missing_extinction_witness :
    asinh_mag [("modelflux_u", ([0] : List ℝ)), ("modelflux_g", [0]),
        ("modelflux_r", [0]), ("modelflux_i", [0]), ("modelflux_z", [0])]
        "model" uBands true =
      Except.error (MagError.missingField (extCol 'u')) :=
  asinh_mag_deredden_missing_extinction.1
    [("modelflux_u", [0]), ("modelflux_g", [0]), ("modelflux_r", [0]),
      ("modelflux_i", [0]), ("modelflux_z", [0])] "model"
    (by intro band hband; fin_cases hband <;> rfl)
    (by intro band hband; fin_cases hband <;> exact ⟨[0], rfl⟩)

/-- C7: whenever `auxilliary_colors` succeeds, its output is exactly the
three columns `c_par = 0.7*(g-r) + 1.2*(r-i-0.18)`,
`c_perp = (r-i) - (g-r)/4 - 0.18`, `d_perp = (r-i) - (g-r)/8` computed row
by row from the g, r, i model magnitudes; in particular for the single
row `g=20.0, r=19.0, i=18.5` it returns exactly
`c_par = 1.084`, `c_perp = 0.07`, `d_perp = 0.375`. -/
theorem auxilliary_colors_formulas :
    (∀ (data : Table) (bands : List Char) (out : Table) (g r i : List ℝ),
      data.lookup "modelmag_g" = some g →
      data.lookup "modelmag_r" = some r →
      data.lookup "modelmag_i" = some i →
      auxilliary_colors data bands = Except.ok out →
      out = [("c_par", List.zipWith3
                (fun g r i => 0.7 * (g - r) + 1.2 * (r - i - 0.18)) g r i),
             ("c_perp", List.zipWith3
                (fun g r i => (r - i) - (g - r) / 4.0 - 0.18) g r i),
             ("d_perp", List.zipWith3
                (fun g r i => (r - i) - (g - r) / 8.0) g r i)]) ∧
    auxilliary_colors [("modelmag_u", [0]), ("modelmag_g", [20.0]),
        ("modelmag_r", [19.0]), ("modelmag_i", [18.5])] uBands =
      Except.ok [("c_par", [1.084]), ("c_perp", [0.07]), ("d_perp", [0.375])] := by
  constructor
  · intro data bands out g r i hg hr hi hok
    cases bands with
    | nil =>
      unfold auxilliary_colors at hok
      exact Except.noConfusion hok
    | cons b0 rest =>
      unfold auxilliary_colors at hok
      cases h0 : data.lookup ("modelmag_" ++ b0.toString) with
      | none =>
        simp only [h0] at hok
        exact Except.noConfusion hok
      | some c0 =>
        simp only [h0, hg, hr, hi, Except.ok.injEq] at hok
        exact hok.symm
  · have h1 : (0.7 : ℝ) * (20.0 - 19.0) + 1.2 * (19.0 - 18.5 - 0.18) = 1.084 := by
      norm_num
    have h2 : ((19.0 : ℝ) - 18.5) - (20.0 - 19.0) / 4.0 - 0.18 = 0.07 := by
      norm_num
    have h3 : ((19.0 : ℝ) - 18.5) - (20.0 - 19.0) / 8.0 = 0.375 := by
      norm_num
    show Except.ok
        [("c_par", [(0.7 : ℝ) * (20.0 - 19.0) + 1.2 * (19.0 - 18.5 - 0.18)]),
         ("c_perp", [((19.0 : ℝ) - 18.5) - (20.0 - 19.0) / 4.0 - 0.18]),
         ("d_perp", [((19.0 : ℝ) - 18.5) - (20.0 - 19.0) / 8.0])] = _
    rw [h1, h2, h3]

/-- Witness for C7: the column characterization applied to the known
single-row table. -/
theorem auxilliary_colors_formulas_witness :
    ([("c_par", [(1.084 : ℝ)]), ("c_perp", [0.07]), ("d_perp", [0.375])] : Table) =
      [("c_par", List.zipWith3
          (fun g r i => 0.7 * (g - r) + 1.2 * (r - i - 0.18))
          [(20.0 : ℝ)] [19.0] [18.5]),
       ("c_perp", List.zipWith3
          (fun g r i => (r - i) - (g - r) / 4.0 - 0.18)
          [(20.0 : ℝ)] [19.0] [18.5]),
       ("d_perp", List.zipWith3
          (fun g r i => (r - i) - (g - r) / 8.0)
          [(20.0 : ℝ)] [19.0] [18.5])] :=
  auxilliary_colors_formulas.1
    [("modelmag_u", [0]), ("modelmag_g", [20.0]), ("modelmag_r", [19.0]),
      ("modelmag_i", [18.5])] uBands
    [("c_par", [1.084]), ("c_perp", [0.07]), ("d_perp", [0.375])]
    [20.0] [19.0] [18.5] rfl rfl rfl auxilliary_colors_formulas.2

/-- C8 counterexample: a record that contains exactly the three fields
`modelmag_g`, `modelmag_r`, `modelmag_i` does NOT succeed under the
default call — the dtype is read from the first band of `ugriz`, so the
call fails with `MissingFieldError` on `modelmag_u`. -/
theorem auxilliary_colors_missing_u :
    auxilliary_colors [("modelmag_g", [(20.0 : ℝ)]), ("modelmag_r", [19.0]),
        ("modelmag_i", [18.5])] uBands =
      Except.error (MagError.missingField "modelmag_u") := rfl

/-- C8 (amended): with the default bands, `auxilliary_colors` succeeds
exactly when all four of `modelmag_u` (read for the dtype), `modelmag_g`,
`modelmag_r`, `modelmag_i` are present, and any failure is a
`MissingFieldError` naming an absent column among these four. -/
theorem auxilliary_colors_field_requirements :
    (∀ data : Table,
      (∃ out, auxilliary_colors data uBands = Except.ok out) ↔
        ((∃ cu, data.lookup "modelmag_u" = some cu) ∧
         (∃ cg, data.lookup "modelmag_g" = some cg) ∧
         (∃ cr, data.lookup "modelmag_r" = some cr) ∧
         (∃ ci, data.lookup "modelmag_i" = some ci))) ∧
    (∀ (data : Table) (e : MagError),
      auxilliary_colors data uBands = Except.error e →
      ∃ name, e = MagError.missingField name ∧ data.lookup name = none ∧
        (name = "modelmag_u" ∨ name = "modelmag_g" ∨ name = "modelmag_r" ∨
          name = "modelmag_i")) := by
  have hdef : ∀ data : Table, auxilliary_colors data uBands =
      (match data.lookup "modelmag_u" with
       | none => Except.error (MagError.missingField "modelmag_u")
       | some _ =>
         match data.lookup "modelmag_g" with
         | none => Except.error (MagError.missingField "modelmag_g")
         | some g =>
           match data.lookup "modelmag_r" with
           | none => Except.error (MagError.missingField "modelmag_r")
           | some r =>
             match data.lookup "modelmag_i" with
             | none => Except.error (MagError.missingField "modelmag_i")
             | some i =>
               Except.ok
                 [("c_par", List.zipWith3
                     (fun g r i => 0.7 * (g - r) + 1.2 * (r - i - 0.18)) g r i),
                  ("c_perp", List.zipWith3
                     (fun g r i => (r - i) - (g - r) / 4.0 - 0.18) g r i),
                  ("d_perp", List.zipWith3
                     (fun g r i => (r - i) - (g - r) / 8.0) g r i)]) :=
    fun data => rfl
  constructor
  · intro data
    rw [hdef]
    constructor
    · intro ⟨out, hok⟩
      cases hu : data.lookup "modelmag_u" with
      | none => simp only [hu] at hok; exact Except.noConfusion hok
      | some cu =>
        cases hg : data.lookup "modelmag_g" with
        | none => simp only [hu, hg] at hok; exact Except.noConfusion hok
        | some cg =>
          cases hr : data.lookup "modelmag_r" with
          | none => simp only [hu, hg, hr] at hok; exact Except.noConfusion hok
          | some cr =>
            cases hi : data.lookup "modelmag_i" with
            | none =>
              simp only [hu, hg, hr, hi] at hok
              exact Except.noConfusion hok
            | some ci =>
              exact ⟨⟨cu, rfl⟩, ⟨cg, rfl⟩, ⟨cr, rfl⟩, ⟨ci, rfl⟩⟩
    · intro ⟨⟨cu, hu⟩, ⟨cg, hg⟩, ⟨cr, hr⟩, ⟨ci, hi⟩⟩
      refine ⟨[("c_par", List.zipWith3
            (fun g r i => 0.7 * (g - r) + 1.2 * (r - i - 0.18)) cg cr ci),
          ("c_perp", List.zipWith3
            (fun g r i => (r - i) - (g - r) / 4.0 - 0.18) cg cr ci),
          ("d_perp", List.zipWith3
            (fun g r i => (r - i) - (g - r) / 8.0) cg cr ci)], ?_⟩
      simp only [hu, hg, hr, hi]
  · intro data e herr
    rw [hdef] at herr
    cases hu : data.lookup "modelmag_u" with
    | none =>
      simp only [hu, Except.error.injEq] at herr
      exact ⟨"modelmag_u", herr.symm, hu, Or.inl rfl⟩
    | some cu =>
      cases hg : data.lookup "modelmag_g" with
      | none =>
        simp only [hu, hg, Except.error.injEq] at herr
        exact ⟨"modelmag_g", herr.symm, hg, Or.inr (Or.inl rfl)⟩
      | some cg =>
        cases hr : data.lookup "modelmag_r" with
        | none =>
          simp only [hu, hg, hr, Except.error.injEq] at herr
          exact ⟨"modelmag_r", herr.symm, hr, Or.inr (Or.inr (Or.inl rfl))⟩
        | some cr =>
          cases hi : data.lookup "modelmag_i" with
          | none =>
            simp only [hu, hg, hr, hi, Except.error.injEq] at herr
            exact ⟨"modelmag_i", herr.symm, hi, Or.inr (Or.inr (Or.inr rfl))⟩
          | some ci =>
            simp only [hu, hg, hr, hi] at herr
            exact Except.noConfusion herr

/-- Witness for C8 (amended): the success criterion applied to a complete
four-column table. -/
theorem auxilliary_colors_field_requirements_witness :
    ∃ out, auxilliary_colors [("modelmag_u", ([0] : List ℝ)),
        ("modelmag_g", [20.0]), ("modelmag_r", [19.0]),
        ("modelmag_i", [18.5])] uBands = Except.ok out :=
  (auxilliary_colors_field_requirements.1
      [("modelmag_u", [0]), ("modelmag_g", [20.0]), ("modelmag_r", [19.0]),
        ("modelmag_i", [18.5])]).mpr
    ⟨⟨[0], rfl⟩, ⟨[20.0], rfl⟩, ⟨[19.0], rfl⟩, ⟨[18.5], rfl⟩⟩

end FileServices
